import Mathlib

set_option maxHeartbeats 1000000

/-!
Shallow embedding of the pymessenger client (pymessenger/bot.py): the
Session/Bot configuration, the payload builders, and the dispatcher, as pure
Lean functions.  HTTP requests are modelled as first-class values
(`HttpRequest`): every send operation returns the request it would issue, so
that the shapes the specification talks about become provable properties.
Python dictionaries are modelled as insertion-ordered association lists with
Python assignment semantics (`dictSet`), and Python attribute errors as
`Except String`.
-/

/-- JSON-like values, the shape of Python payload dictionaries. -/
inductive Json where
  | null : Json
  | bool (b : Bool) : Json
  | num (n : Int) : Json
  | str (s : String) : Json
  | arr (xs : List Json) : Json
  | obj (kvs : List (String × Json)) : Json

abbrev PyDict := List (String × Json)

/-- Python dict assignment `d[k] = v`: replace the value at the first
occurrence of `k` keeping its position, or append `(k, v)` when absent. -/
def dictSet {α : Type} : List (String × α) → String → α → List (String × α)
  | [], k, v => [(k, v)]
  | p :: rest, k, v => if p.1 = k then (k, v) :: rest else p :: dictSet rest k v

/-- Python `d.update(u)`: assign every binding of `u` into `d`, in order. -/
def pyUpdate {α : Type} (d u : List (String × α)) : List (String × α) :=
  u.foldl (fun acc p => dictSet acc p.1 p.2) d

/-- Python `obj.get(k)` as used on a recipient argument: on a dict it returns
the value or `None`; on any non-dict value the attribute access raises
`AttributeError`. -/
def pyGetAttr : Json → String → Except String Json
  | .obj kvs, k => .ok ((kvs.lookup k).getD .null)
  | _, _ => .error "AttributeError"

theorem lookup_dictSet_self {α : Type} (d : List (String × α)) (k : String) (v : α) :
    (dictSet d k v).lookup k = some v := by
  induction d with
  | nil => simp [dictSet, List.lookup]
  | cons p rest ih =>
    obtain ⟨k1, v1⟩ := p
    by_cases h : k1 = k
    · simp [dictSet, h, List.lookup]
    · simp only [dictSet, h, if_false, List.lookup]
      have hb : (k == k1) = false := by
        simp [beq_eq_false_iff_ne]
        exact fun hk => h hk.symm
      simp [hb, ih]

theorem lookup_dictSet_ne {α : Type} (d : List (String × α)) (k k2 : String) (v : α)
    (h : k2 ≠ k) : (dictSet d k v).lookup k2 = d.lookup k2 := by
  have hb : (k2 == k) = false := beq_eq_false_iff_ne.mpr h
  induction d with
  | nil =>
    simp [dictSet, List.lookup, hb]
  | cons p rest ih =>
    obtain ⟨k1, v1⟩ := p
    by_cases hk : k1 = k
    · subst hk
      simp [dictSet, List.lookup, hb]
    · simp only [dictSet, hk, if_false, List.lookup]
      by_cases hk2 : k2 = k1
      · subst hk2; simp [List.lookup]
      · have hb2 : (k2 == k1) = false := beq_eq_false_iff_ne.mpr hk2
        simp [hb2, ih]

theorem lookup_pyUpdate_not_mem {α : Type} (u d : List (String × α)) (k : String)
    (h : ∀ p ∈ u, p.1 ≠ k) : (pyUpdate d u).lookup k = d.lookup k := by
  induction u generalizing d with
  | nil => simp [pyUpdate]
  | cons q rest ih =>
    have hstep : pyUpdate d (q :: rest) = pyUpdate (dictSet d q.1 q.2) rest := by
      simp [pyUpdate]
    rw [hstep, ih _ (fun p hp => h p (List.mem_cons_of_mem _ hp))]
    exact lookup_dictSet_ne d q.1 k q.2 (fun hk => h q (List.mem_cons_self _ _) hk.symm)

theorem dictSet_append_of_not_mem {α : Type} (d : List (String × α)) (k : String) (v : α)
    (h : ∀ p ∈ d, p.1 ≠ k) : dictSet d k v = d ++ [(k, v)] := by
  induction d with
  | nil => simp [dictSet]
  | cons p rest ih =>
    have hp : p.1 ≠ k := h p (List.mem_cons_self _ _)
    simp only [dictSet, hp, if_false, List.cons_append]
    rw [ih (fun q hq => h q (List.mem_cons_of_mem _ hq))]

theorem pyUpdate_disjoint {α : Type} (u d : List (String × α))
    (hdisj : ∀ p ∈ u, ∀ q ∈ d, p.1 ≠ q.1)
    (hnodup : (u.map Prod.fst).Nodup) : pyUpdate d u = d ++ u := by
  induction u generalizing d with
  | nil => simp [pyUpdate]
  | cons q rest ih =>
    have hstep : pyUpdate d (q :: rest) = pyUpdate (dictSet d q.1 q.2) rest := by
      simp [pyUpdate]
    have hqd : ∀ p ∈ d, p.1 ≠ q.1 :=
      fun p hp he => hdisj q (List.mem_cons_self _ _) p hp he.symm
    have hset : dictSet d q.1 q.2 = d ++ [q] := by
      have := dictSet_append_of_not_mem d q.1 q.2 hqd
      simpa using this
    rw [hstep, hset]
    have hnodup2 : (rest.map Prod.fst).Nodup := by
      simp only [List.map_cons, List.nodup_cons] at hnodup
      exact hnodup.2
    have hq_not : q.1 ∉ rest.map Prod.fst := by
      simp only [List.map_cons, List.nodup_cons] at hnodup
      exact hnodup.1
    have hdisj2 : ∀ p ∈ rest, ∀ r ∈ d ++ [q], p.1 ≠ r.1 := by
      intro p hp r hr
      rcases List.mem_append.mp hr with hr | hr
      · exact hdisj p (List.mem_cons_of_mem _ hp) r hr
      · have : r = q := by simpa using hr
        subst this
        intro he
        exact hq_not (he ▸ List.mem_map_of_mem Prod.fst hp)
    rw [ih (d ++ [q]) hdisj2 hnodup2]
    simp

/-! ## SHA-256 and HMAC (model of pymessenger/utils.generate_appsecret_proof) -/

def M32 : Nat := 4294967296

def add32 (xs : List Nat) : Nat := (xs.foldl (· + ·) 0) % M32

def rotr32 (n x : Nat) : Nat := ((x >>> n) ||| (x <<< (32 - n))) % M32

def sha256K : List Nat :=
  [1116352408, 1899447441, 3049323471, 3921009573, 961987163,
   1508970993, 2453635748, 2870763221, 3624381080, 310598401,
   607225278, 1426881987, 1925078388, 2162078206, 2614888103,
   3248222580, 3835390401, 4022224774, 264347078, 604807628,
   770255983, 1249150122, 1555081692, 1996064986, 2554220882,
   2821834349, 2952996808, 3210313671, 3336571891, 3584528711,
   113926993, 338241895, 666307205, 773529912, 1294757372,
   1396182291, 1695183700, 1986661051, 2177026350, 2456956037,
   2730485921, 2820302411, 3259730800, 3345764771, 3516065817,
   3600352804, 4094571909, 275423344, 430227734, 506948616,
   659060556, 883997877, 958139571, 1322822218, 1537002063,
   1747873779, 1955562222, 2024104815, 2227730452, 2361852424,
   2428436474, 2756734187, 3204031479, 3329325298]

def sha256Init : List Nat :=
  [1779033703, 3144134277, 1013904242, 2773480762,
   1359893119, 2600822924, 528734635, 1541459225]

/-- SHA-256 padding of a byte list. -/
def sha256Pad (msg : List Nat) : List Nat :=
  let l := msg.length
  let zeros := (119 - (l % 64)) % 64
  let bitLen := l * 8
  msg ++ [0x80] ++ List.replicate zeros 0 ++
    ((List.range 8).map (fun i => (bitLen >>> (8 * (7 - i))) % 256))

def toBlocks (xs : List Nat) : List (List Nat) :=
  if h : xs = [] then [] else xs.take 64 :: toBlocks (xs.drop 64)
termination_by xs.length
decreasing_by
  simp only [List.length_drop]
  exact Nat.sub_lt (List.length_pos.mpr h) (by norm_num)

/-- Big-endian 32-bit words of a 64-byte block. -/
def blockWords (block : List Nat) : List Nat :=
  (List.range 16).map (fun i =>
    (block.getD (4 * i) 0) * 16777216 + (block.getD (4 * i + 1) 0) * 65536 +
    (block.getD (4 * i + 2) 0) * 256 + block.getD (4 * i + 3) 0)

def sigma0 (x : Nat) : Nat := (rotr32 7 x) ^^^ (rotr32 18 x) ^^^ (x >>> 3)
def sigma1 (x : Nat) : Nat := (rotr32 17 x) ^^^ (rotr32 19 x) ^^^ (x >>> 10)
def bigSigma0 (x : Nat) : Nat := (rotr32 2 x) ^^^ (rotr32 13 x) ^^^ (rotr32 22 x)
def bigSigma1 (x : Nat) : Nat := (rotr32 6 x) ^^^ (rotr32 11 x) ^^^ (rotr32 25 x)

def extendStep (w : List Nat) : List Nat :=
  let n := w.length
  w ++ [add32 [sigma1 (w.getD (n - 2) 0), w.getD (n - 7) 0,
               sigma0 (w.getD (n - 15) 0), w.getD (n - 16) 0]]

def messageSchedule (w16 : List Nat) : List Nat := Nat.iterate extendStep 48 w16

def chB (e f g : Nat) : Nat := (e &&& f) ^^^ ((e ^^^ 4294967295) &&& g)
def majB (a b c : Nat) : Nat := (a &&& b) ^^^ (a &&& c) ^^^ (b &&& c)

def compressStep (st : List Nat) (kw : Nat × Nat) : List Nat :=
  match st with
  | [a, b, c, d, e, f, g, h] =>
    let t1 := add32 [h, bigSigma1 e, chB e f g, kw.1, kw.2]
    let t2 := add32 [bigSigma0 a, majB a b c]
    [add32 [t1, t2], a, b, c, add32 [d, t1], e, f, g]
  | other => other

def compressBlock (h0 : List Nat) (block : List Nat) : List Nat :=
  let w := messageSchedule (blockWords block)
  let st := (sha256K.zip w).foldl compressStep h0
  (h0.zip st).map (fun p => add32 [p.1, p.2])

def word32Bytes (x : Nat) : List Nat :=
  [(x >>> 24) % 256, (x >>> 16) % 256, (x >>> 8) % 256, x % 256]

/-- SHA-256 of a byte list, as a 32-byte list. -/
def sha256 (msg : List Nat) : List Nat :=
  (((toBlocks (sha256Pad msg)).foldl compressBlock sha256Init).map word32Bytes).flatten

/-- HMAC-SHA256 over byte lists. -/
def hmacSha256 (key msg : List Nat) : List Nat :=
  let key := if 64 < key.length then sha256 key else key
  let key := key ++ List.replicate (64 - key.length) 0
  let opad := key.map (fun b => b ^^^ 0x5c)
  let ipad := key.map (fun b => b ^^^ 0x36)
  sha256 (opad ++ sha256 (ipad ++ msg))

def toHex (bs : List Nat) : String :=
  String.mk ((bs.map (fun b => [Nat.digitChar (b / 16), Nat.digitChar (b % 16)])).flatten)

def strBytes (s : String) : List Nat := s.toUTF8.toList.map UInt8.toNat

/-- Modelled from the spec: `pymessenger/utils.py` is not part of the sources,
only its caller is; the spec describes `generate_appsecret_proof` as the
hex-encoded HMAC-SHA256 of the access token using the app secret as key. -/
def generate_appsecret_proof (access_token app_secret : String) : String :=
  toHex (hmacSha256 (strBytes app_secret) (strBytes access_token))

namespace PyMessenger

/-! ## Session (class Bot) -/

/-- NotificationType enum of bot.py. -/
inductive NotificationType where
  | regular : NotificationType
  | silent_push : NotificationType
  | no_push : NotificationType
deriving DecidableEq

def NotificationType.value : NotificationType → String
  | .regular => "REGULAR"
  | .silent_push => "SILENT_PUSH"
  | .no_push => "NO_PUSH"

/-- TagType string constants of bot.py. -/
def TagType.confirmed_event_update : String := "CONFIRMED_EVENT_UPDATE"

def TagType.post_purchase_update : String := "POST_PURCHASE_UPDATE"

def TagType.account_update : String := "ACCOUNT_UPDATE"

def TagType.human_agent : String := "HUMAN_AGENT"

/-- The Bot session configuration.  `api_version` is the display form used in
the graph URL; `num_api_version` is the numeric form `float(api_version)` used
for feature branching. -/
structure Bot where
  access_token : String
  api_version : String
  num_api_version : ℚ
  app_secret : Option String
  page_id : String

def Bot.graph_url (b : Bot) : String := "https://graph.facebook.com/v" ++ b.api_version

/-- `auth_args`: the access token, plus the appsecret proof when an app secret
is configured. -/
def Bot.auth_args (b : Bot) : List (String × String) :=
  let auth := [("access_token", b.access_token)]
  match b.app_secret with
  | none => auth
  | some s => dictSet auth "appsecret_proof" (generate_appsecret_proof b.access_token s)

def Bot.auth_args_json (b : Bot) : PyDict :=
  b.auth_args.map (fun p => (p.1, Json.str p.2))

/-! ## Dispatcher: requests as values -/

/-- One part of a multipart body: a text field or a file tuple
`(filename, data, mime)`. -/
inductive MPart where
  | text (s : String) : MPart
  | file (filename : String) (data : List Nat) (mime : String) : MPart

/-- The HTTP request a bot operation would issue. -/
inductive HttpRequest where
  | postJsonBody (url : String) (params : List (String × String)) (body : Json) : HttpRequest
  | postQueryParams (url : String) (params : PyDict) : HttpRequest
  | postMultipart (url : String) (params : List (String × String))
      (parts : List (String × MPart)) : HttpRequest
  | getReq (url : String) (params : List (String × String)) : HttpRequest
  | deleteReq (url : String) (params : List (String × String)) (body : Json) : HttpRequest

def Bot.messages_endpoint (b : Bot) : String := b.graph_url ++ "/" ++ b.page_id ++ "/messages"

/-- `send_raw`: JSON POST to the messages endpoint with auth query params. -/
def Bot.send_raw (b : Bot) (payload : Json) : HttpRequest :=
  .postJsonBody b.messages_endpoint b.auth_args payload

/-- The payload dict after `send_recipient` has written its two keys. -/
def send_recipient_payload (recipient_id : Json) (payload : PyDict)
    (notification_type : NotificationType) : PyDict :=
  dictSet (dictSet payload "recipient" (Json.obj [("id", recipient_id)]))
    "notification_type" (Json.str notification_type.value)

/-- `send_recipient`: write recipient and notification_type into the payload
dict and dispatch it as raw JSON. -/
def Bot.send_recipient (b : Bot) (recipient_id : Json) (payload : PyDict)
    (notification_type : NotificationType := .regular) : HttpRequest :=
  b.send_raw (Json.obj (send_recipient_payload recipient_id payload notification_type))

/-- `send_message_api16plus`: the modern (API >= 14.0) send path.
`recipient_id.get("id")` raises AttributeError on a non-dict recipient; on a
dict it yields the id value or None.  The request carries everything as query
parameters, with no JSON body. -/
def Bot.send_message_api16plus (b : Bot) (recipient_id message : Json)
    (notification_type : NotificationType := .regular) : Except String HttpRequest := do
  let rid ← pyGetAttr recipient_id "id"
  let params : PyDict :=
    [("recipient", rid), ("messaging_type", Json.str "RESPONSE"), ("message", message)]
  let params := pyUpdate params b.auth_args_json
  return .postQueryParams b.messages_endpoint params

/-- `send_message`: branch on the numeric API version. -/
def Bot.send_message (b : Bot) (recipient_id message : Json)
    (notification_type : NotificationType := .regular) : Except String HttpRequest :=
  if 14 ≤ b.num_api_version then
    b.send_message_api16plus recipient_id message notification_type
  else
    .ok (b.send_recipient recipient_id [("message", message)] notification_type)

/-- `send_tag_message`: always via `send_recipient`, never the modern path. -/
def Bot.send_tag_message (b : Bot) (recipient_id message : Json)
    (tag : String := TagType.human_agent)
    (notification_type : NotificationType := .regular) : HttpRequest :=
  b.send_recipient recipient_id
    [("message", message), ("messaging_type", Json.str "MESSAGE_TAG"), ("tag", Json.str tag)]
    notification_type

/-- `send_text_message`. -/
def Bot.send_text_message (b : Bot) (recipient_id : Json) (message : String)
    (notification_type : NotificationType := .regular) : Except String HttpRequest :=
  b.send_message recipient_id (Json.obj [("text", Json.str message)]) notification_type

/-- `send_attachment_url`. -/
def Bot.send_attachment_url (b : Bot) (recipient_id : Json)
    (attachment_type attachment_url : String)
    (notification_type : NotificationType := .regular) : Except String HttpRequest :=
  b.send_message recipient_id
    (Json.obj [("attachment", Json.obj
      [("type", Json.str attachment_type),
       ("payload", Json.obj [("url", Json.str attachment_url)])])])
    notification_type

/-- `send_generic_message`. -/
def Bot.send_generic_message (b : Bot) (recipient_id : Json) (elements : List Json)
    (notification_type : NotificationType := .regular) : Except String HttpRequest :=
  b.send_message recipient_id
    (Json.obj [("attachment", Json.obj
      [("type", Json.str "template"),
       ("payload", Json.obj
         [("template_type", Json.str "generic"), ("elements", Json.arr elements)])])])
    notification_type

/-- `send_button_message`. -/
def Bot.send_button_message (b : Bot) (recipient_id : Json) (text : String)
    (buttons : List Json)
    (notification_type : NotificationType := .regular) : Except String HttpRequest :=
  b.send_message recipient_id
    (Json.obj [("attachment", Json.obj
      [("type", Json.str "template"),
       ("payload", Json.obj
         [("template_type", Json.str "button"), ("text", Json.str text),
          ("buttons", Json.arr buttons)])])])
    notification_type

/-- `send_action`. -/
def Bot.send_action (b : Bot) (recipient_id : Json) (action : String)
    (notification_type : NotificationType := .regular) : HttpRequest :=
  b.send_recipient recipient_id [("sender_action", Json.str action)] notification_type

end PyMessenger

namespace PyMessenger

/-! ## Quick replies -/

/-- One text quick-reply entry. -/
def quickReplyEntry (title : String) (payload : Json) : Json :=
  Json.obj [("content_type", Json.str "text"), ("title", Json.str title), ("payload", payload)]

/-- The `quick_replies` list built by `send_quick_replies_message`: when the
payload list is missing or empty (Python falsiness of `not list_of_payloads`)
every reply is its own payload; otherwise replies are zipped with the payload
list and a `None` entry falls back to the reply text. -/
def send_quick_replies_list (quick_replies : List String)
    (list_of_payloads : Option (List (Option Json))) : List Json :=
  match list_of_payloads with
  | none => quick_replies.map (fun reply => quickReplyEntry reply (Json.str reply))
  | some ps =>
    if ps.isEmpty then quick_replies.map (fun reply => quickReplyEntry reply (Json.str reply))
    else (quick_replies.zip ps).map
      (fun rp => quickReplyEntry rp.1 (rp.2.getD (Json.str rp.1)))

/-- `send_quick_replies_message`: wraps the quick-replies list with the text
and sends via `send_message` with the default notification type. -/
def Bot.send_quick_replies_message (b : Bot) (recipient_id : Json) (text : String)
    (quick_replies : List String)
    (list_of_payloads : Option (List (Option Json)) := none) : Except String HttpRequest :=
  b.send_message recipient_id
    (Json.obj [("text", Json.str text),
      ("quick_replies", Json.arr (send_quick_replies_list quick_replies list_of_payloads))])

/-! ## Attachments (multipart, with a local-file event trace) -/

mutual

/-- A minimal JSON serializer standing in for `json.dumps` (string escaping is
not modelled; the payload strings here contain no characters that need it). -/
def jsonDump : Json → String
  | .null => "null"
  | .bool b => if b then "true" else "false"
  | .num n => toString n
  | .str s => "\"" ++ s ++ "\""
  | .arr xs => "[" ++ String.intercalate ", " (jsonDumpList xs) ++ "]"
  | .obj kvs => "\x7b" ++ String.intercalate ", " (jsonDumpKVs kvs) ++ "\x7d"

/-- Serialized elements of a JSON array. -/
def jsonDumpList : List Json → List String
  | [] => []
  | x :: xs => jsonDump x :: jsonDumpList xs

/-- Serialized `"key": value` members of a JSON object. -/
def jsonDumpKVs : List (String × Json) → List String
  | [] => []
  | (k, v) :: kvs => ("\"" ++ k ++ "\": " ++ jsonDump v) :: jsonDumpKVs kvs

end

/-- Observable events of `send_attachment`: the local file access (open+read),
the close at the end of the `with` block, and the network POST. -/
inductive Ev where
  | fsOpenRead (path : String) : Ev
  | fsClose (path : String) : Ev
  | net (req : HttpRequest) : Ev

def pyBasename (path : String) : String := (path.splitOn "/").getLastD path

def pyExtPiece (path : String) : String := (path.splitOn ".").getLastD path

/-- `send_attachment`: reads the file through the file-system collaborator
`fs`, then builds the multipart request.  Returns the event trace together
with the outcome; a failing read (e.g. FileNotFoundError) aborts before any
network event. -/
def Bot.send_attachment (b : Bot) (recipient_id : String)
    (attachment_type attachment_path : String)
    (notification_type : NotificationType := .regular) (is_reusable : Bool := true)
    (fs : String → Except String (List Nat) := fun _ => .error "FileNotFoundError") :
    List Ev × Except String HttpRequest :=
  let file_type := attachment_type ++ "/" ++ pyExtPiece attachment_path
  match fs attachment_path with
  | .error e => ([.fsOpenRead attachment_path], .error e)
  | .ok file_data =>
    let parts : List (String × MPart) :=
      [("recipient", .text (jsonDump (Json.obj [("id", Json.str recipient_id)]))),
       ("notification_type", .text notification_type.value),
       ("message", .text (jsonDump (Json.obj [("attachment", Json.obj
          [("type", Json.str attachment_type),
           ("payload", Json.obj [("is_reusable", Json.bool is_reusable)])])]))),
       ("filedata", .file (pyBasename attachment_path) file_data file_type)]
    let req := HttpRequest.postMultipart b.messages_endpoint b.auth_args parts
    ([.fsOpenRead attachment_path, .fsClose attachment_path, .net req], .ok req)

/-! ## User info and response handling -/

/-- The GET request issued by `get_user_info`. -/
def Bot.get_user_info_request (b : Bot) (recipient_id : String)
    (fields : Option (List String) := none) : HttpRequest :=
  let params : List (String × String) :=
    match fields with
    | none => []
    | some fs => dictSet [] "fields" (String.intercalate "," fs)
  let params := pyUpdate params b.auth_args
  .getReq (b.graph_url ++ "/" ++ recipient_id) params

/-- How `get_user_info` turns the transport response into a result: the body
only when the status code is exactly 200, `None` otherwise. -/
def get_user_info_result (status : Nat) (body : Json) : Option Json :=
  if status = 200 then some body else none

/-- Response handling of `send_raw` (and every other send): `response.json()`
unconditionally, the status code is never consulted. -/
def send_raw_result (status : Nat) (body : Json) : Json := body

/-- Response handling of `send_message_api16plus`: decoded body regardless of
status. -/
def send_message_api16plus_result (status : Nat) (body : Json) : Json := body

/-- Response handling of `send_attachment`: decoded body regardless of
status. -/
def send_attachment_result (status : Nat) (body : Json) : Json := body

/-- Response handling of the messenger-profile operations: decoded body
regardless of status. -/
def messenger_profile_result (status : Nat) (body : Json) : Json := body

/-! ## A reference heap, to state the in-place mutation of send_recipient -/

/-- A tiny heap of Python dict objects: cell index = object identity. -/
structure Heap where
  cells : List PyDict

def Heap.get (h : Heap) (r : Nat) : PyDict := h.cells.getD r []

def Heap.set (h : Heap) (r : Nat) (d : PyDict) : Heap := ⟨h.cells.set r d⟩

/-- `send_recipient` with the payload passed by reference, as in Python: the
two assignments write into the caller's object; no new dict is allocated. -/
def Bot.send_recipient_heap (b : Bot) (recipient_id : Json) (ref : Nat)
    (notification_type : NotificationType) (h : Heap) : Heap × HttpRequest :=
  let d := h.get ref
  let d := dictSet d "recipient" (Json.obj [("id", recipient_id)])
  let d := dictSet d "notification_type" (Json.str notification_type.value)
  (h.set ref d, b.send_raw (Json.obj d))

end PyMessenger

namespace PyMessenger

/-! ## Helper lemmas about auth_args -/

theorem auth_args_none (b : Bot) (h : b.app_secret = none) :
    b.auth_args = [("access_token", b.access_token)] := by
  simp [Bot.auth_args, h]

theorem auth_args_some (b : Bot) (s : String) (h : b.app_secret = some s) :
    b.auth_args = [("access_token", b.access_token),
      ("appsecret_proof", generate_appsecret_proof b.access_token s)] := by
  simp [Bot.auth_args, h, dictSet]

theorem auth_args_json_keys (b : Bot) :
    ∀ p ∈ b.auth_args_json, p.1 = "access_token" ∨ p.1 = "appsecret_proof" := by
  intro p hp
  cases happ : b.app_secret with
  | none =>
    rw [Bot.auth_args_json, auth_args_none b happ] at hp
    simp at hp
    left; rw [hp]
  | some s =>
    rw [Bot.auth_args_json, auth_args_some b s happ] at hp
    simp at hp
    rcases hp with h | h
    · left; rw [h]
    · right; rw [h]

theorem auth_args_json_keys_nodup (b : Bot) : (b.auth_args_json.map Prod.fst).Nodup := by
  cases happ : b.app_secret with
  | none => rw [Bot.auth_args_json, auth_args_none b happ]; simp
  | some s => rw [Bot.auth_args_json, auth_args_some b s happ]; simp

theorem pyUpdate_auth_args (b : Bot) (d : PyDict)
    (hd : ∀ q ∈ d, q.1 ≠ "access_token" ∧ q.1 ≠ "appsecret_proof") :
    pyUpdate d b.auth_args_json = d ++ b.auth_args_json := by
  apply pyUpdate_disjoint
  · intro p hp q hq
    rcases auth_args_json_keys b p hp with h1 | h1 <;> rw [h1]
    · exact fun he => (hd q hq).1 he.symm
    · exact fun he => (hd q hq).2 he.symm
  · exact auth_args_json_keys_nodup b

/-! ## Concrete sessions used by witnesses -/

def botV16 : Bot :=
  { access_token := "token", api_version := "16.0", num_api_version := 16,
    app_secret := none, page_id := "page" }

def botV13 : Bot :=
  { access_token := "token", api_version := "13.0", num_api_version := 13,
    app_secret := none, page_id := "page" }

def botSecret : Bot :=
  { access_token := "tok", api_version := "16.0", num_api_version := 16,
    app_secret := some "sec", page_id := "me" }

/-! ## Claim C2 -/

/-- Claim C2: `auth_args` always carries the access token; with an app secret
it also carries `appsecret_proof`, the hex HMAC-SHA256 of the access token
keyed by the app secret; with no app secret that key is entirely absent. -/
theorem auth_args_spec (b : Bot) :
    b.auth_args.lookup "access_token" = some b.access_token ∧
    (∀ s, b.app_secret = some s →
      b.auth_args.lookup "appsecret_proof" =
        some (toHex (hmacSha256 (strBytes s) (strBytes b.access_token)))) ∧
    (b.app_secret = none →
      b.auth_args.lookup "appsecret_proof" = none ∧
      "appsecret_proof" ∉ b.auth_args.map Prod.fst) := by
  refine ⟨?_, ?_, ?_⟩
  · cases happ : b.app_secret with
    | none => rw [auth_args_none b happ]; simp [List.lookup]
    | some s => rw [auth_args_some b s happ]; simp [List.lookup]
  · intro s hs
    rw [auth_args_some b s hs]
    simp [List.lookup, generate_appsecret_proof]
  · intro hn
    rw [auth_args_none b hn]
    simp [List.lookup]

/-- Witness for C2 at a concrete session with an app secret. -/
theorem auth_args_spec_witness :
    botSecret.auth_args.lookup "appsecret_proof" =
      some (toHex (hmacSha256 (strBytes "sec") (strBytes "tok"))) :=
  (auth_args_spec botSecret).2.1 "sec" rfl

end PyMessenger

namespace PyMessenger

/-- Unfolding of the modern send path on a dict recipient. -/
theorem send_message_api16plus_obj (b : Bot) (kvs : List (String × Json))
    (message : Json) (nt : NotificationType) :
    b.send_message_api16plus (Json.obj kvs) message nt =
      .ok (.postQueryParams b.messages_endpoint
        (pyUpdate [("recipient", (kvs.lookup "id").getD Json.null),
          ("messaging_type", Json.str "RESPONSE"),
          ("message", message)] b.auth_args_json)) := rfl

/-! ## Claim C1 -/

/-- Claim C1: `send_message` branches on the numeric API version: at >= 14.0
it builds the modern request (recipient id, messaging_type RESPONSE, message,
then the auth parameters) and issues it as a query-parameterized POST with no
JSON body to the messages endpoint; below 14.0 it delegates to
`send_recipient` with a message-wrapping payload, yielding the legacy
recipient-wrapped JSON-body shape. -/
theorem send_message_version_branching (b : Bot) (kvs : List (String × Json))
    (rid message : Json) (nt : NotificationType) :
    (14 ≤ b.num_api_version →
      b.send_message (Json.obj kvs) message nt =
        .ok (.postQueryParams b.messages_endpoint
          ([("recipient", (kvs.lookup "id").getD Json.null),
            ("messaging_type", Json.str "RESPONSE"),
            ("message", message)] ++ b.auth_args_json))) ∧
    (b.num_api_version < 14 →
      b.send_message rid message nt = .ok (b.send_recipient rid [("message", message)] nt) ∧
      b.send_recipient rid [("message", message)] nt =
        .postJsonBody b.messages_endpoint b.auth_args
          (Json.obj (send_recipient_payload rid [("message", message)] nt))) := by
  constructor
  · intro h
    rw [Bot.send_message, if_pos h, send_message_api16plus_obj, pyUpdate_auth_args]
    intro q hq
    simp at hq
    rcases hq with h1 | h1 | h1 <;> rw [h1] <;> exact ⟨by simp, by simp⟩
  · intro h
    exact ⟨by rw [Bot.send_message, if_neg (not_le.mpr h)], rfl⟩

/-- Witness for C1: the modern branch at version 16 and the legacy branch at
version 13 on concrete inputs. -/
theorem send_message_version_branching_witness :
    botV16.send_message (Json.obj [("id", Json.str "USER")]) (Json.str "hi") .regular =
      .ok (.postQueryParams botV16.messages_endpoint
        ([("recipient", Json.str "USER"),
          ("messaging_type", Json.str "RESPONSE"),
          ("message", Json.str "hi")] ++ botV16.auth_args_json)) ∧
    botV13.send_message (Json.str "USER") (Json.str "hi") .regular =
      .ok (botV13.send_recipient (Json.str "USER") [("message", Json.str "hi")] .regular) :=
  ⟨(send_message_version_branching botV16 [("id", Json.str "USER")]
      (Json.str "USER") (Json.str "hi") .regular).1 (by norm_num [botV16]),
   ((send_message_version_branching botV13 [] (Json.str "USER") (Json.str "hi") .regular).2
      (by norm_num [botV13])).1⟩

/-! ## Claim C3 -/

/-- Claim C3: `get_user_info` returns the decoded body exactly when the HTTP
status is 200 and None otherwise; every other operation's response handling
ignores the status code entirely. -/
theorem get_user_info_status_gating (status : Nat) (body : Json) :
    (get_user_info_result status body = some body ↔ status = 200) ∧
    (status ≠ 200 → get_user_info_result status body = none) ∧
    (∀ status2,
      send_raw_result status body = send_raw_result status2 body ∧
      send_message_api16plus_result status body = send_message_api16plus_result status2 body ∧
      send_attachment_result status body = send_attachment_result status2 body ∧
      messenger_profile_result status body = messenger_profile_result status2 body) := by
  refine ⟨?_, ?_, fun status2 => ⟨rfl, rfl, rfl, rfl⟩⟩
  · constructor
    · intro h
      by_contra hne
      rw [get_user_info_result, if_neg hne] at h
      exact Option.noConfusion h
    · intro h; rw [get_user_info_result, if_pos h]
  · intro h; rw [get_user_info_result, if_neg h]

/-- Witness for C3 at statuses 200 and 404. -/
theorem get_user_info_status_gating_witness :
    get_user_info_result 404 (Json.str "err") = none ∧
    get_user_info_result 200 (Json.str "ok") = some (Json.str "ok") :=
  ⟨(get_user_info_status_gating 404 (Json.str "err")).2.1 (by decide),
   (get_user_info_status_gating 200 (Json.str "ok")).1.mpr rfl⟩

/-! ## Claim C4 -/

/-- Claim C4 counterexample: in the modern path a plain scalar recipientId
does not yield an empty value — the attribute access fails with
AttributeError, so the claim as stated is false at this input. -/
theorem send_message_scalar_recipient_error :
    botV16.send_message (Json.str "12345") (Json.obj [("text", Json.str "hi")]) .regular =
      .error "AttributeError" := by
  rw [Bot.send_message, if_pos (by norm_num [botV16])]
  rfl

/-- Claim C4 (amended): in the modern send path, a recipientId that is a
mapping without an id key yields an empty value (None) as the recipient
parameter; but a plain scalar recipientId makes the attribute access fail
with AttributeError before any request is built. -/
theorem send_message_api16plus_recipient_shape (b : Bot) (message : Json)
    (nt : NotificationType) :
    (∀ s : String, b.send_message_api16plus (Json.str s) message nt =
        .error "AttributeError") ∧
    (∀ n : Int, b.send_message_api16plus (Json.num n) message nt =
        .error "AttributeError") ∧
    (∀ kvs, kvs.lookup "id" = none →
      ∃ params, b.send_message_api16plus (Json.obj kvs) message nt =
          .ok (.postQueryParams b.messages_endpoint params) ∧
        params.lookup "recipient" = some Json.null) := by
  refine ⟨fun s => rfl, fun n => rfl, ?_⟩
  intro kvs hid
  refine ⟨pyUpdate [("recipient", (kvs.lookup "id").getD Json.null),
    ("messaging_type", Json.str "RESPONSE"), ("message", message)] b.auth_args_json, ?_, ?_⟩
  · exact send_message_api16plus_obj b kvs message nt
  · rw [lookup_pyUpdate_not_mem]
    · rw [hid]
      simp [List.lookup]
    · intro p hp
      rcases auth_args_json_keys b p hp with h1 | h1 <;> rw [h1] <;> simp

/-- Witness for C4 (amended): concrete scalar and id-less-dict recipients. -/
theorem send_message_api16plus_recipient_shape_witness :
    botV16.send_message_api16plus (Json.str "99") (Json.str "m") .regular =
      .error "AttributeError" ∧
    ∃ params, botV16.send_message_api16plus (Json.obj [("name", Json.str "x")])
        (Json.str "m") .regular =
        .ok (.postQueryParams botV16.messages_endpoint params) ∧
      params.lookup "recipient" = some Json.null :=
  ⟨(send_message_api16plus_recipient_shape botV16 (Json.str "m") .regular).1 "99",
   (send_message_api16plus_recipient_shape botV16 (Json.str "m") .regular).2.2
     [("name", Json.str "x")] rfl⟩

/-! ## Claim C5 -/

/-- Claim C5: `send_recipient` sets the recipient wrapper and the
notification-type token (REGULAR, SILENT_PUSH or NO_PUSH), leaves every other
payload key unchanged, and dispatches the result as a JSON POST. -/
theorem send_recipient_frame (b : Bot) (rid : Json) (payload : PyDict)
    (nt : NotificationType) (k : String)
    (h1 : k ≠ "recipient") (h2 : k ≠ "notification_type") :
    (send_recipient_payload rid payload nt).lookup "recipient" =
      some (Json.obj [("id", rid)]) ∧
    (send_recipient_payload rid payload nt).lookup "notification_type" =
      some (Json.str nt.value) ∧
    (nt.value = "REGULAR" ∨ nt.value = "SILENT_PUSH" ∨ nt.value = "NO_PUSH") ∧
    (send_recipient_payload rid payload nt).lookup k = payload.lookup k ∧
    b.send_recipient rid payload nt =
      .postJsonBody b.messages_endpoint b.auth_args
        (Json.obj (send_recipient_payload rid payload nt)) := by
  refine ⟨?_, ?_, ?_, ?_, rfl⟩
  · rw [send_recipient_payload, lookup_dictSet_ne _ _ _ _ (by simp), lookup_dictSet_self]
  · rw [send_recipient_payload, lookup_dictSet_self]
  · cases nt <;> simp [NotificationType.value]
  · rw [send_recipient_payload, lookup_dictSet_ne _ _ _ _ h2, lookup_dictSet_ne _ _ _ _ h1]

/-- Witness for C5 at a concrete payload carrying an unrelated key. -/
theorem send_recipient_frame_witness :
    (send_recipient_payload (Json.str "R") [("message", Json.str "m")]
        .silent_push).lookup "message" = some (Json.str "m") ∧
    (send_recipient_payload (Json.str "R") [("message", Json.str "m")]
        .silent_push).lookup "notification_type" = some (Json.str "SILENT_PUSH") :=
  ⟨((send_recipient_frame botV16 (Json.str "R") [("message", Json.str "m")]
      .silent_push "message" (by decide) (by decide)).2.2.2.1),
   ((send_recipient_frame botV16 (Json.str "R") [("message", Json.str "m")]
      .silent_push "message" (by decide) (by decide)).2.1)⟩

end PyMessenger

namespace PyMessenger

/-! ## Claim C6 -/

/-- Claim C6: the quick-replies builder pairs replies with the parallel
payload list; a missing list (or an empty one, by Python falsiness) and a
None entry both default the payload to the reply text, and every entry is
typed content_type "text". -/
theorem send_quick_replies_spec (quick_replies : List String)
    (list_of_payloads : Option (List (Option Json))) :
    (list_of_payloads = none ∨ list_of_payloads = some [] →
      send_quick_replies_list quick_replies list_of_payloads =
        quick_replies.map (fun reply => quickReplyEntry reply (Json.str reply))) ∧
    (∀ ps, list_of_payloads = some ps → ps ≠ [] →
      send_quick_replies_list quick_replies list_of_payloads =
        (quick_replies.zip ps).map
          (fun rp => quickReplyEntry rp.1 (rp.2.getD (Json.str rp.1)))) ∧
    (∀ e ∈ send_quick_replies_list quick_replies list_of_payloads,
      ∃ t p, e = Json.obj [("content_type", Json.str "text"),
        ("title", Json.str t), ("payload", p)]) ∧
    (∀ b : Bot, ∀ recipient_id : Json, ∀ text : String,
      b.send_quick_replies_message recipient_id text quick_replies list_of_payloads =
        b.send_message recipient_id
          (Json.obj [("text", Json.str text),
            ("quick_replies",
              Json.arr (send_quick_replies_list quick_replies list_of_payloads))])
          .regular) := by
  refine ⟨?_, ?_, ?_, fun b rid text => rfl⟩
  · rintro (h | h) <;> rw [h] <;> simp [send_quick_replies_list]
  · intro ps h hne
    rw [h, send_quick_replies_list]
    have : ps.isEmpty = false := by
      cases ps with
      | nil => exact absurd rfl hne
      | cons a as => rfl
    rw [this]
    simp
  · intro e he
    rcases hc : list_of_payloads with _ | ps
    · rw [hc, send_quick_replies_list] at he
      rcases List.mem_map.mp he with ⟨r, _, hr⟩
      exact ⟨r, Json.str r, hr.symm⟩
    · rw [hc, send_quick_replies_list] at he
      by_cases hemp : ps.isEmpty
      · rw [if_pos hemp] at he
        rcases List.mem_map.mp he with ⟨r, _, hr⟩
        exact ⟨r, Json.str r, hr.symm⟩
      · rw [if_neg hemp] at he
        rcases List.mem_map.mp he with ⟨rp, _, hr⟩
        exact ⟨rp.1, rp.2.getD (Json.str rp.1), hr.symm⟩

/-- Witness for C6: replies Yes/No with payloads [Y, None] give payloads Y
and No (the missing payload falls back to its own reply text). -/
theorem send_quick_replies_spec_witness :
    send_quick_replies_list ["Yes", "No"] (some [some (Json.str "Y"), none]) =
      [quickReplyEntry "Yes" (Json.str "Y"), quickReplyEntry "No" (Json.str "No")] := by
  rw [(send_quick_replies_spec ["Yes", "No"]
    (some [some (Json.str "Y"), none])).2.1 [some (Json.str "Y"), none] rfl (by simp)]
  rfl

/-! ## Claim C7 -/

/-- Claim C7: `send_attachment` opens and fully reads the local file before
any network call: a failing read produces a resource error with no network
event in the trace, and a successful read closes the file before the single
network POST. -/
theorem send_attachment_local_file_first (b : Bot) (recipient_id : String)
    (attachment_type attachment_path : String) (nt : NotificationType)
    (is_reusable : Bool) (fs : String → Except String (List Nat)) :
    (∀ e, fs attachment_path = .error e →
      b.send_attachment recipient_id attachment_type attachment_path nt is_reusable fs =
        ([.fsOpenRead attachment_path], .error e) ∧
      ∀ req, Ev.net req ∉
        (b.send_attachment recipient_id attachment_type attachment_path nt
          is_reusable fs).1) ∧
    (∀ data, fs attachment_path = .ok data →
      ∃ req, b.send_attachment recipient_id attachment_type attachment_path nt
          is_reusable fs =
        ([.fsOpenRead attachment_path, .fsClose attachment_path, .net req], .ok req)) := by
  constructor
  · intro e he
    constructor
    · rw [Bot.send_attachment, he]
    · intro req hmem
      rw [Bot.send_attachment, he] at hmem
      simp at hmem
  · intro data hd
    rw [Bot.send_attachment, hd]
    exact ⟨_, rfl⟩

/-- Witness for C7: a nonexistent path (the file-system collaborator reports
FileNotFoundError) yields the error with no network event. -/
theorem send_attachment_local_file_first_witness :
    botV16.send_attachment "R" "image" "no/such.png" .regular true
        (fun _ => .error "FileNotFoundError") =
      ([.fsOpenRead "no/such.png"], .error "FileNotFoundError") :=
  ((send_attachment_local_file_first botV16 "R" "image" "no/such.png" .regular true
    (fun _ => .error "FileNotFoundError")).1 "FileNotFoundError" rfl).1

/-! ## Claim C8 -/

/-- Claim C8: `send_tag_message` always builds the MESSAGE_TAG payload and
sends it through `send_recipient` as a legacy JSON-body POST, never through
the modern query-parameterized path, even at API version >= 14. -/
theorem send_tag_message_always_legacy (b : Bot) (recipient_id message : Json)
    (tag : String) (nt : NotificationType) :
    b.send_tag_message recipient_id message tag nt =
      b.send_recipient recipient_id
        [("message", message), ("messaging_type", Json.str "MESSAGE_TAG"),
         ("tag", Json.str tag)] nt ∧
    b.send_tag_message recipient_id message tag nt =
      .postJsonBody b.messages_endpoint b.auth_args
        (Json.obj (send_recipient_payload recipient_id
          [("message", message), ("messaging_type", Json.str "MESSAGE_TAG"),
           ("tag", Json.str tag)] nt)) ∧
    (14 ≤ b.num_api_version →
      ∀ url params, b.send_tag_message recipient_id message tag nt ≠
        .postQueryParams url params) := by
  refine ⟨rfl, rfl, fun _ url params h => ?_⟩
  exact HttpRequest.noConfusion h

/-- Witness for C8 at a version-16 session. -/
theorem send_tag_message_always_legacy_witness :
    botV16.send_tag_message (Json.str "R") (Json.str "m") "HUMAN_AGENT" .regular ≠
      .postQueryParams botV16.messages_endpoint [] :=
  (send_tag_message_always_legacy botV16 (Json.str "R") (Json.str "m")
    "HUMAN_AGENT" .regular).2.2 (by norm_num [botV16]) botV16.messages_endpoint []

/-! ## Claim C9 -/

/-- Claim C9: payload construction is pure and deterministic — building the
same payload twice from equal inputs yields structurally identical results,
and the generic-template builder is a fixed function of its inputs. -/
theorem payload_building_deterministic (b : Bot) (recipient_id message : Json)
    (payload : PyDict) (elements : List Json) (nt : NotificationType) :
    send_recipient_payload recipient_id payload nt =
      send_recipient_payload recipient_id payload nt ∧
    b.send_recipient recipient_id payload nt = b.send_recipient recipient_id payload nt ∧
    b.send_message recipient_id message nt = b.send_message recipient_id message nt ∧
    b.send_generic_message recipient_id elements nt =
      b.send_generic_message recipient_id elements nt ∧
    b.send_generic_message recipient_id elements nt =
      b.send_message recipient_id
        (Json.obj [("attachment", Json.obj
          [("type", Json.str "template"),
           ("payload", Json.obj
             [("template_type", Json.str "generic"),
              ("elements", Json.arr elements)])])]) nt :=
  ⟨rfl, rfl, rfl, rfl, rfl⟩

/-! ## Claim C10 -/

/-- Claim C10: `send_recipient` mutates the caller-supplied payload dict in
place: the very cell the caller passed now holds the rewritten dict (any
prior recipient or notification_type values are overwritten), no new dict
cell is allocated, and every other cell is untouched. -/
theorem send_recipient_mutates_in_place (b : Bot) (recipient_id : Json) (ref : Nat)
    (nt : NotificationType) (h : Heap) (hlt : ref < h.cells.length) :
    (b.send_recipient_heap recipient_id ref nt h).1.get ref =
      send_recipient_payload recipient_id (h.get ref) nt ∧
    ((b.send_recipient_heap recipient_id ref nt h).1.get ref).lookup "recipient" =
      some (Json.obj [("id", recipient_id)]) ∧
    ((b.send_recipient_heap recipient_id ref nt h).1.get ref).lookup "notification_type" =
      some (Json.str nt.value) ∧
    (b.send_recipient_heap recipient_id ref nt h).1.cells.length = h.cells.length ∧
    (∀ r2, r2 ≠ ref → (b.send_recipient_heap recipient_id ref nt h).1.get r2 = h.get r2) ∧
    (b.send_recipient_heap recipient_id ref nt h).2 =
      b.send_raw (Json.obj (send_recipient_payload recipient_id (h.get ref) nt)) := by
  have hget : (b.send_recipient_heap recipient_id ref nt h).1.get ref =
      send_recipient_payload recipient_id (h.get ref) nt := by
    rw [Bot.send_recipient_heap]
    simp [Heap.get, Heap.set, List.getD, List.getElem?_set_self, hlt,
      send_recipient_payload]
  refine ⟨hget, ?_, ?_, ?_, ?_, rfl⟩
  · rw [hget, send_recipient_payload, lookup_dictSet_ne _ _ _ _ (by simp),
      lookup_dictSet_self]
  · rw [hget, send_recipient_payload, lookup_dictSet_self]
  · rw [Bot.send_recipient_heap]
    simp [Heap.set]
  · intro r2 hne
    rw [Bot.send_recipient_heap]
    simp [Heap.get, Heap.set, List.getD]
    rw [List.getElem?_set_ne (fun he => hne he.symm)]

/-- Witness for C10: a one-cell heap whose dict already holds a recipient
value; after the call the same cell holds the overwritten dict. -/
theorem send_recipient_mutates_in_place_witness :
    ((botV16.send_recipient_heap (Json.str "NEW") 0 .regular
        ⟨[[("recipient", Json.str "OLD")]]⟩).1.get 0).lookup "recipient" =
      some (Json.obj [("id", Json.str "NEW")]) :=
  (send_recipient_mutates_in_place botV16 (Json.str "NEW") 0 .regular
    ⟨[[("recipient", Json.str "OLD")]]⟩ (by decide)).2.1

end PyMessenger
